import Mathlib

/- Shallow embedding of the resilient multi-source data-acquisition and
offline-caching layer of a browser weather dashboard.

The embedding covers:
  * the per-provider retry/backoff loops of `VisualCrossingAPI.fetchWeather`
    and `MeteostatAPI.fetchHistorical` (3 attempts, exponential backoff,
    client errors never retried);
  * payload shape validation (`_validateResponse`) and normalization
    (`_formatWeatherData`, `_formatHistoricalData`) for Visual Crossing,
    Meteostat, SunriseSunset and BigDataCloud clients;
  * date-range validation of `MeteostatAPI._validateDates`, including the
    ECMAScript `Date` parse of `YYYY-MM-DD` strings;
  * the service worker's fetch handler (network first, cache fallback,
    synthetic 503 offline response) and its durable retry queue drain
    (`retryFailedRequests`).

Numbers are modelled as `ℚ` (the scripts use them only for copies,
comparisons and a division by 3.6), machine time and real network I/O are
modelled by explicit parameters: the outcome of the k-th network attempt is
an input to the embedded function, never an effect. -/

/-- Result object `{ valid, error }` produced by the validation helpers
(`_validateResponse`, `_validateDates`, `validateCoordinates`);
`error` is `none` exactly where the script stores `null`. -/
structure VResult where
  valid : Bool
  error : Option String
deriving Repr, DecidableEq

/-- `listPrefix p l` is true when `p` is a prefix of `l` (character lists). -/
def listPrefix : List Char → List Char → Bool
  | [], _ => true
  | _ :: _, [] => false
  | a :: as, b :: bs => a == b && listPrefix as bs

/-- `listIncludes needle hay`: `needle` occurs contiguously inside `hay`. -/
def listIncludes (needle : List Char) : List Char → Bool
  | [] => listPrefix needle []
  | c :: rest => listPrefix needle (c :: rest) || listIncludes needle rest

/-- JavaScript `hay.includes(needle)` on strings. -/
def strIncludes (hay needle : String) : Bool :=
  listIncludes needle.toList hay.toList

/-- One alternative of the client-error regex: `HTTP Fehler 4\d\d` matched at
the head of the given character list. -/
def http4xxAt (cs : List Char) : Bool :=
  listPrefix ("HTTP Fehler 4".toList) cs &&
    (match cs.drop 13 with
     | d1 :: d2 :: _ => d1.isDigit && d2.isDigit
     | _ => false)

/-- `anyPos p cs`: `p` holds at some suffix of `cs` (regex search semantics). -/
def anyPos (p : List Char → Bool) : List Char → Bool
  | [] => p []
  | c :: rest => p (c :: rest) || anyPos p rest

/-- Visual Crossing client-error classification of an error message:
`/HTTP Fehler 4\d\d|401|403|404|429|API key|Invalid API|unauthorized/.test(msg)`
(src/api/visualcrossing.js, fetchWeather catch block). -/
def vcIsClientError (msg : String) : Bool :=
  anyPos http4xxAt msg.toList ||
  strIncludes msg "401" || strIncludes msg "403" ||
  strIncludes msg "404" || strIncludes msg "429" ||
  strIncludes msg "API key" || strIncludes msg "Invalid API" ||
  strIncludes msg "unauthorized"

/-- Meteostat client-error classification of an error message:
`/HTTP Fehler 4\d\d|401|403|404|429|API key|Invalid/.test(msg)`
(MeteostatAPI.fetchHistorical catch block). -/
def msIsClientError (msg : String) : Bool :=
  anyPos http4xxAt msg.toList ||
  strIncludes msg "401" || strIncludes msg "403" ||
  strIncludes msg "404" || strIncludes msg "429" ||
  strIncludes msg "API key" || strIncludes msg "Invalid"

/-- Outcome of one `safeApiFetch(...)` + `response.json()` round inside the
retry loop: either a parsed payload or a thrown error carrying its message
(timeout, network failure, HTTP error, JSON parse error). The behaviour of
the network on the k-th attempt is an input of the embedding. -/
inductive FetchOut (α : Type) where
  | ok : α → FetchOut α
  | thrown : String → FetchOut α
deriving Repr, DecidableEq

/-- Result of the whole retry loop: the final outcome (`Except.error msg`
models the loop rethrowing `msg` to the outer catch), the number of
`safeApiFetch` calls that were made, and the backoff delays (ms) that were
awaited between attempts, in order. -/
structure LoopResult (α : Type) where
  result : Except String α
  attemptsMade : Nat
  waits : List Nat
deriving Repr

/-- The retry loop shared (by textual duplication) by
`VisualCrossingAPI.fetchWeather` and `MeteostatAPI.fetchHistorical`:

```
let attempt = 0;
while (attempt < maxAttempts) {
  try { response = await safeApiFetch(...); data = await response.json();
        const validation = this._validateResponse(data);
        if (!validation.valid) throw new Error(validation.error);
        break; }
  catch (err) {
    attempt += 1;
    const isLast = attempt >= maxAttempts;
    if (isClientError(err.message) || isLast) throw err;
    const waitMs = 200 * Math.pow(2, attempt - 1);
    await sleep(waitMs); } }
```

`fuel` is the remaining number of loop iterations (`maxAttempts - attempt`);
the loop condition `attempt < maxAttempts` can only become false after the
final failed attempt already threw, so the `fuel = 0` branch models the
fall-through where `data` is still `null` and the subsequent field access
throws a `TypeError` caught by the outer handler. -/
def retryLoopGo {α : Type} (validate : Option α → VResult)
    (isClientError : String → Bool) (maxAttempts : Nat)
    (outcomes : Nat → FetchOut (Option α)) :
    Nat → Nat → List Nat → LoopResult (Option α)
  | 0, attempt, ws => ⟨Except.error "Cannot read properties of null", attempt, ws⟩
  | fuel + 1, attempt, ws =>
    let afterThrow : String → LoopResult (Option α) := fun msg =>
      let attempt' := attempt + 1
      if isClientError msg || maxAttempts ≤ attempt' then
        ⟨Except.error msg, attempt', ws⟩
      else
        retryLoopGo validate isClientError maxAttempts outcomes fuel attempt'
          (ws ++ [200 * 2 ^ (attempt' - 1)])
    match outcomes attempt with
    | .thrown msg => afterThrow msg
    | .ok payload =>
      let v := validate payload
      if v.valid then ⟨Except.ok payload, attempt + 1, ws⟩
      else afterThrow (v.error.getD "")

/-- Entry point of the retry loop: `maxAttempts = 3`, `attempt = 0`. -/
def retryLoop {α : Type} (validate : Option α → VResult)
    (isClientError : String → Bool)
    (outcomes : Nat → FetchOut (Option α)) : LoopResult (Option α) :=
  retryLoopGo validate isClientError 3 outcomes 3 0 []

/-- JavaScript `a || b` for a possibly-null/undefined string `a`
(the empty string is falsy). -/
def jsOrStr (a : Option String) (b : String) : String :=
  match a with
  | some s => if s = "" then b else s
  | none => b

/-- JavaScript `a || b` where both operands are possibly-null/undefined
strings (the empty string is falsy; the last operand is returned as-is). -/
def jsOrOpt (a b : Option String) : Option String :=
  match a with
  | some s => if s = "" then b else some s
  | none => b

/-- Modelled from the spec: `validateCoordinates` is defined in
`src/utils/validation.js`, which is not among the provided sources; §4.2
requires every Provider Client to validate coordinate ranges as a structural
precondition before any network call, reported as a distinct validation
error. -/
def validateCoordinates (latitude longitude : ℚ) : VResult :=
  if -90 ≤ latitude ∧ latitude ≤ 90 ∧ -180 ≤ longitude ∧ longitude ≤ 180 then
    ⟨true, none⟩
  else
    ⟨false, some "Ungültige Koordinaten"⟩

/-- `currentConditions` object of a Visual Crossing timeline response,
restricted to the fields the scripts read. `Option` marks fields the
response may omit (JavaScript `undefined`/`null`). -/
structure VCCurrent where
  temp : ℚ
  humidity : ℚ
  windspeed : ℚ
  pressure : Option ℚ
  cloudcover : Option ℚ
  conditions : Option String
  datetimeEpoch : ℤ
deriving Repr, DecidableEq

/-- One element of the `days` array of a Visual Crossing response. -/
structure VCDay where
  datetime : String
  tempmin : ℚ
  tempmax : ℚ
  temp : ℚ
  precip : Option ℚ
  windspeed : ℚ
  conditions : Option String
deriving Repr, DecidableEq

/-- A Visual Crossing response body, restricted to the fields the scripts
read. `errorCode` is a numeric provider error code (absent on success). -/
structure VCPayload where
  errorCode : Option ℤ
  message : Option String
  currentConditions : Option VCCurrent
  days : Option (List VCDay)
deriving Repr, DecidableEq

/-- JavaScript truthiness of a possibly-absent numeric field. -/
def jsTruthyInt (o : Option ℤ) : Bool :=
  match o with
  | some n => n != 0
  | none => false

/-- `VisualCrossingAPI._validateResponse(data)`; the argument is `none` when
`response.json()` produced `null`. -/
def vcValidateResponse (data : Option VCPayload) : VResult :=
  match data with
  | none => ⟨false, some "Keine Daten von Visual Crossing erhalten"⟩
  | some d =>
    if jsTruthyInt d.errorCode then
      ⟨false, some ("Visual Crossing: " ++
        jsOrStr d.message ("Error code: " ++ toString (d.errorCode.getD 0)))⟩
    else if d.currentConditions.isNone then
      ⟨false, some "Ungültige Visual Crossing Antwort: Keine aktuellen Bedingungen"⟩
    else if d.days.isNone then
      ⟨false, some "Ungültige Visual Crossing Antwort: Keine Tagesdaten"⟩
    else
      ⟨true, none⟩

/-- One element of the `data` array of a Meteostat response; every field may
be `null`. -/
structure MSDay where
  date : Option String
  tmin : Option ℚ
  tmax : Option ℚ
  tavg : Option ℚ
  prcp : Option ℚ
  wspd : Option ℚ
  wdir : Option ℚ
  pres : Option ℚ
deriving Repr, DecidableEq

/-- A Meteostat response body, restricted to the fields the scripts read. -/
structure MSPayload where
  error : Option String
  data : Option (List MSDay)
deriving Repr, DecidableEq

/-- `MeteostatAPI._validateResponse(data)`; the argument is `none` when
`response.json()` produced `null`. -/
def msValidateResponse (data : Option MSPayload) : VResult :=
  match data with
  | none => ⟨false, some "Keine Daten von Meteostat erhalten"⟩
  | some d =>
    match d.error with
    | some e =>
      if e = "" then
        msValidDataArray d
      else
        ⟨false, some ("Meteostat: " ++ e)⟩
    | none => msValidDataArray d
where
  /-- The `Array.isArray(data.data)` and `data.data.length === 0` checks. -/
  msValidDataArray (d : MSPayload) : VResult :=
    match d.data with
    | none => ⟨false, some "Ungültige Meteostat Antwort: Keine Datenarray"⟩
    | some [] => ⟨false, some "Meteostat: Keine Daten für den angegebenen Zeitraum"⟩
    | some (_ :: _) => ⟨true, none⟩

/-- Numeric value of a decimal digit character. -/
def digitVal (c : Char) : ℕ := c.toNat - '0'.toNat

/-- The `^\d{4}-\d{2}-\d{2}$` test of `MeteostatAPI._validateDates`. -/
def dateFormatOk (s : String) : Bool :=
  match s.toList with
  | [y1, y2, y3, y4, h1, mo1, mo2, h2, d1, d2] =>
    y1.isDigit && y2.isDigit && y3.isDigit && y4.isDigit && h1 == '-' &&
    mo1.isDigit && mo2.isDigit && h2 == '-' && d1.isDigit && d2.isDigit
  | _ => false

/-- Gregorian leap-year test. -/
def isLeapYear (y : ℕ) : Bool :=
  y % 4 = 0 && (y % 100 ≠ 0 || y % 400 = 0)

/-- Length of month `m` (1-12) in year `y`. -/
def daysInMonth (y m : ℕ) : ℕ :=
  if m = 1 ∨ m = 3 ∨ m = 5 ∨ m = 7 ∨ m = 8 ∨ m = 10 ∨ m = 12 then 31
  else if m = 4 ∨ m = 6 ∨ m = 9 ∨ m = 11 then 30
  else if m = 2 then (if isLeapYear y then 29 else 28)
  else 0

/-- Days from 1970-01-01 to the civil date `y-m-d` (proleptic Gregorian,
the standard days-from-civil algorithm). -/
def daysFromCivil (y : ℤ) (m d : ℕ) : ℤ :=
  let y' := if m ≤ 2 then y - 1 else y
  let era : ℤ := (if 0 ≤ y' then y' else y' - 399) / 400
  let yoe : ℤ := y' - era * 400
  let mp : ℕ := (m + 9) % 12
  let doy : ℤ := (153 * (mp : ℤ) + 2) / 5 + (d : ℤ) - 1
  let doe : ℤ := yoe * 365 + yoe / 4 - yoe / 100 + doy
  era * 146097 + doe - 719468

/-- ECMAScript `new Date(s).getTime()` for a `YYYY-MM-DD` string: a string in
the date-time string format parses as midnight UTC; out-of-range month or day
components yield an invalid date (`NaN`, here `none`), as do strings that are
not in the 10-character format. -/
def jsDateMs (s : String) : Option ℤ :=
  match s.toList with
  | [y1, y2, y3, y4, h1, mo1, mo2, h2, d1, d2] =>
    if y1.isDigit && y2.isDigit && y3.isDigit && y4.isDigit && h1 == '-' &&
       mo1.isDigit && mo2.isDigit && h2 == '-' && d1.isDigit && d2.isDigit then
      let y := 1000 * digitVal y1 + 100 * digitVal y2 + 10 * digitVal y3 + digitVal y4
      let m := 10 * digitVal mo1 + digitVal mo2
      let d := 10 * digitVal d1 + digitVal d2
      if 1 ≤ m ∧ m ≤ 12 ∧ 1 ≤ d ∧ d ≤ daysInMonth y m then
        some (86400000 * daysFromCivil (y : ℤ) m d)
      else none
    else none
  | _ => none

/-- `Math.ceil(a / b)` for natural `a`, positive natural `b`. -/
def jsCeilDiv (a b : ℕ) : ℕ := (a + b - 1) / b

/-- The `start > end` comparison of `_validateDates`, on the parsed
timestamps (false when either date is invalid, as `NaN` comparisons are). -/
def startAfterEnd (s e : String) : Bool :=
  match jsDateMs s, jsDateMs e with
  | some a, some b => decide (b < a)
  | _, _ => false

/-- The `diffDays > 365` test of `_validateDates`:
`Math.ceil(Math.abs(end - start) / 86400000) > 365` (false when either
date is invalid). -/
def spanExceeds365 (s e : String) : Bool :=
  match jsDateMs s, jsDateMs e with
  | some a, some b => decide (365 < jsCeilDiv (b - a).natAbs 86400000)
  | _, _ => false

/-- `MeteostatAPI._validateDates(startDate, endDate)`. The `typeof` guards
are vacuous for string inputs; `!startDate` is the empty-string test. -/
def msValidateDates (startDate endDate : String) : VResult :=
  if startDate = "" then
    ⟨false, some "Startdatum erforderlich (Format: YYYY-MM-DD)"⟩
  else if endDate = "" then
    ⟨false, some "Enddatum erforderlich (Format: YYYY-MM-DD)"⟩
  else if ¬ (dateFormatOk startDate && dateFormatOk endDate) then
    ⟨false, some "Ungültiges Datumformat (erwartet: YYYY-MM-DD)"⟩
  else
    match jsDateMs startDate, jsDateMs endDate with
    | some a, some b =>
      if b < a then
        ⟨false, some "Startdatum muss vor Enddatum liegen"⟩
      else if 365 < jsCeilDiv (b - a).natAbs 86400000 then
        ⟨false, some "Zeitraum darf 365 Tage nicht überschreiten"⟩
      else
        ⟨true, none⟩
    | _, _ => ⟨false, some "Ungültige Datumswerte"⟩

/-- `MeteostatAPI._mapPrecipitationToCode(precipitation)`: an inferred
weather code from a possibly-null precipitation amount (mm). -/
def msMapPrecipitationToCode (precipitation : Option ℚ) : ℕ :=
  match precipitation with
  | none => 0
  | some p =>
    if p = 0 then 0
    else if p < 2 then 61
    else if p < 5 then 63
    else 65

/-- One normalized day produced by `MeteostatAPI._formatHistoricalData`. -/
structure MSFormattedDay where
  date : String
  temp_min : Option ℚ
  temp_max : Option ℚ
  temp_avg : Option ℚ
  precipitation : ℚ
  wind_speed : Option ℚ
  wind_direction : Option ℚ
  pressure : Option ℚ
  weather_code : ℕ
deriving Repr, DecidableEq

/-- The per-day mapping inside `MeteostatAPI._formatHistoricalData`:
`x !== null ? x : null` is the identity, `day.prcp !== null ? day.prcp : 0`
defaults to 0, and `day.wspd !== null ? day.wspd / 3.6 : null` converts
km/h to m/s. -/
def msFormatDay (day : MSDay) : MSFormattedDay where
  date := day.date.getD ""
  temp_min := day.tmin
  temp_max := day.tmax
  temp_avg := day.tavg
  precipitation := day.prcp.getD 0
  wind_speed := day.wspd.map (fun w => w / 3.6)
  wind_direction := day.wdir
  pressure := day.pres
  weather_code := msMapPrecipitationToCode day.prcp

/-- `MeteostatAPI._formatHistoricalData(data).daily`. -/
def msFormatHistoricalData (data : MSPayload) : List MSFormattedDay :=
  (data.data.getD []).map msFormatDay

/-- `VisualCrossingAPI._mapWeatherCondition(conditions)`: case-insensitive
substring matching of the textual conditions, in source order (an absent or
empty string is falsy and maps to 3). -/
def vcMapWeatherCondition (conditions : Option String) : ℕ :=
  match conditions with
  | none => 3
  | some s =>
    if s = "" then 3
    else
      let c := s.toLower
      if strIncludes c "clear" || strIncludes c "sunny" then 0
      else if strIncludes c "partly cloudy" || strIncludes c "mostly clear" then 2
      else if strIncludes c "cloudy" || strIncludes c "overcast" then 3
      else if strIncludes c "drizzle" || strIncludes c "light rain" then 51
      else if strIncludes c "rain" then 63
      else if strIncludes c "heavy rain" || strIncludes c "intense rain" then 65
      else if strIncludes c "snow" then 71
      else if strIncludes c "thunderstorm" || strIncludes c "severe" ||
              strIncludes c "tornado" then 95
      else if strIncludes c "fog" || strIncludes c "mist" then 45
      else if strIncludes c "wind" then 3
      else 3

/-- Normalized current conditions produced by
`VisualCrossingAPI._formatWeatherData`. -/
structure VCCurrentFormatted where
  temp : ℚ
  humidity : ℚ
  wind_speed : ℚ
  pressure : Option ℚ
  clouds : ℚ
  weather_code : ℕ
  description : String
  timestamp : ℤ
deriving Repr, DecidableEq

/-- One normalized day produced by `VisualCrossingAPI._formatWeatherData`
(used for both the historical and the forecast series). -/
structure VCFormattedDay where
  date : String
  temp_min : ℚ
  temp_max : ℚ
  temp_avg : ℚ
  precipitation : ℚ
  wind_speed : ℚ
  weather_code : ℕ
  description : String
deriving Repr, DecidableEq

/-- The per-day mapping inside `VisualCrossingAPI._formatWeatherData`. -/
def vcFormatDay (day : VCDay) : VCFormattedDay where
  date := day.datetime
  temp_min := day.tempmin
  temp_max := day.tempmax
  temp_avg := day.temp
  precipitation := day.precip.getD 0
  wind_speed := day.windspeed
  weather_code := vcMapWeatherCondition day.conditions
  description := jsOrStr day.conditions "Unbekannt"

/-- Normalized result of `VisualCrossingAPI._formatWeatherData`. -/
structure VCFormatted where
  current : VCCurrentFormatted
  historical : List VCFormattedDay
  forecast : List VCFormattedDay
deriving Repr, DecidableEq

/-- The historical filter of `_formatWeatherData`:
`dayCount = Math.floor((today - new Date(day.datetime)) / 86400000)` must lie
in `0..6`; an unparsable `datetime` gives `NaN` and is filtered out.
`todayMs` is the clock reading taken by `new Date()`. -/
def vcKeepHistoricalDay (todayMs : ℤ) (day : VCDay) : Bool :=
  match jsDateMs day.datetime with
  | some t =>
    let dayCount := Int.fdiv (todayMs - t) 86400000
    decide (0 ≤ dayCount ∧ dayCount ≤ 6)
  | none => false

/-- `VisualCrossingAPI._formatWeatherData(data)`, parameterized by the
current time `todayMs`. The result is `none` on the (unreachable after
validation) paths where the script would throw a `TypeError` reading
`data.currentConditions.temp` or `data.days.filter`. -/
def vcFormatWeatherData (data : VCPayload) (todayMs : ℤ) : Option VCFormatted :=
  match data.currentConditions, data.days with
  | some cc, some days =>
    some
      { current :=
          { temp := cc.temp
            humidity := cc.humidity
            wind_speed := cc.windspeed
            pressure := cc.pressure
            clouds := cc.cloudcover.getD 0
            weather_code := vcMapWeatherCondition cc.conditions
            description := jsOrStr cc.conditions "Unbekannt"
            timestamp := cc.datetimeEpoch * 1000 }
        historical := ((days.filter (vcKeepHistoricalDay todayMs)).reverse).map vcFormatDay
        forecast := ((days.drop 1).take 7).map vcFormatDay }
  | _, _ => none

/-- The value a Provider Client's fetch method resolves with: either the
success object or the `{ error, source }` object produced by the outer
`catch`. Both shapes carry the `source` tag identifying the provider.
Timing fields (`duration`, `fromCache`) are not modelled. -/
inductive ProviderReply (α : Type) where
  | ok (data : α) (src : String)
  | err (error : String) (src : String)
deriving Repr, DecidableEq

/-- The `source` tag of a provider reply. -/
def ProviderReply.source {α : Type} : ProviderReply α → String
  | .ok _ s => s
  | .err _ s => s

/-- A provider reply names provider `name` and, on failure, carries the
error message in the reply object. -/
def identifiesProvider {α : Type} (r : ProviderReply α) (name : String) : Prop :=
  (∃ d, r = .ok d name) ∨ (∃ m, r = .err m name)

/-- The Visual Crossing retry loop instantiated with its validator and
client-error classifier. -/
def vcRetryLoop (outcomes : Nat → FetchOut (Option VCPayload)) :
    LoopResult (Option VCPayload) :=
  retryLoop vcValidateResponse vcIsClientError outcomes

/-- The Meteostat retry loop instantiated with its validator and
client-error classifier. -/
def msRetryLoop (outcomes : Nat → FetchOut (Option MSPayload)) :
    LoopResult (Option MSPayload) :=
  retryLoop msValidateResponse msIsClientError outcomes

/-- `VisualCrossingAPI.fetchWeather(latitude, longitude, apiKey, units)`.
`outcomes` gives the behaviour of the network on each attempt, `todayMs` the
clock reading used by `_formatWeatherData`; the second component counts the
`safeApiFetch` calls that were performed. The `units` parameter only affects
the request URL and is therefore unused here. -/
def vcFetchWeather (latitude longitude : ℚ) (apiKey : Option String)
    (_units : String) (outcomes : Nat → FetchOut (Option VCPayload))
    (todayMs : ℤ) : ProviderReply VCFormatted × ℕ :=
  match apiKey with
  | none => (.err "Visual Crossing API key erforderlich" "visualcrossing", 0)
  | some k =>
    if k.trim = "" then
      (.err "Visual Crossing API key erforderlich" "visualcrossing", 0)
    else
      let coordCheck := validateCoordinates latitude longitude
      if coordCheck.valid then
        let lr := vcRetryLoop outcomes
        match lr.result with
        | .error msg => (.err msg "visualcrossing", lr.attemptsMade)
        | .ok data =>
          match data with
          | none =>
            (.err "Cannot read properties of null" "visualcrossing", lr.attemptsMade)
          | some d =>
            match vcFormatWeatherData d todayMs with
            | some f => (.ok f "visualcrossing", lr.attemptsMade)
            | none =>
              (.err "Cannot read properties of undefined" "visualcrossing",
                lr.attemptsMade)
      else
        (.err (coordCheck.error.getD "") "visualcrossing", 0)

/-- `MeteostatAPI.fetchHistorical(latitude, longitude, startDate, endDate,
apiKey)`. The API key only affects the request headers and is therefore
unused here; the second component counts the `safeApiFetch` calls that were
performed. -/
def msFetchHistorical (latitude longitude : ℚ) (startDate endDate : String)
    (_apiKey : Option String) (outcomes : Nat → FetchOut (Option MSPayload)) :
    ProviderReply (List MSFormattedDay) × ℕ :=
  let coordCheck := validateCoordinates latitude longitude
  if coordCheck.valid then
    let dateCheck := msValidateDates startDate endDate
    if dateCheck.valid then
      let lr := msRetryLoop outcomes
      match lr.result with
      | .error msg => (.err msg "meteostat", lr.attemptsMade)
      | .ok data =>
        match data with
        | none => (.err "Cannot read properties of null" "meteostat", lr.attemptsMade)
        | some d => (.ok (msFormatHistoricalData d) "meteostat", lr.attemptsMade)
    else
      (.err (dateCheck.error.getD "") "meteostat", 0)
  else
    (.err (coordCheck.error.getD "") "meteostat", 0)

/-- The `results` object of a SunriseSunset response; every field may be
absent. `day_length` is the numeric value `Number(results.day_length)`. -/
structure SSResults where
  sunrise : Option String
  sunset : Option String
  solar_noon : Option String
  day_length : Option ℚ
  civil_twilight_begin : Option String
  civil_twilight_end : Option String
  nautical_twilight_begin : Option String
  nautical_twilight_end : Option String
  astronomical_twilight_begin : Option String
  astronomical_twilight_end : Option String
deriving Repr, DecidableEq

/-- A SunriseSunset response body, restricted to the fields the script
reads. -/
structure SSPayload where
  status : Option String
  error : Option String
  results : Option SSResults
deriving Repr, DecidableEq

/-- Normalized result of `SunriseSunsetAPI._normalize`. -/
structure SSNormalized where
  sunrise : Option String
  sunset : Option String
  solarNoon : Option String
  dayLengthSeconds : Option ℚ
  civilDawn : Option String
  civilDusk : Option String
  nauticalDawn : Option String
  nauticalDusk : Option String
  astroDawn : Option String
  astroDusk : Option String
deriving Repr, DecidableEq

/-- The empty `results` object used by `payload.results || {}`. -/
def ssEmptyResults : SSResults :=
  ⟨none, none, none, none, none, none, none, none, none, none⟩

/-- `SunriseSunsetAPI._normalize(results)`;
`Number(results.day_length) || null` turns both an absent value (`NaN`)
and `0` into `null`. -/
def ssNormalize (results : SSResults) : SSNormalized where
  sunrise := results.sunrise
  sunset := results.sunset
  solarNoon := results.solar_noon
  dayLengthSeconds :=
    match results.day_length with
    | some q => if q = 0 then none else some q
    | none => none
  civilDawn := results.civil_twilight_begin
  civilDusk := results.civil_twilight_end
  nauticalDawn := results.nautical_twilight_begin
  nauticalDusk := results.nautical_twilight_end
  astroDawn := results.astronomical_twilight_begin
  astroDusk := results.astronomical_twilight_end

/-- `SunriseSunsetAPI.fetchSunEvents(latitude, longitude, apiKey)`: a single
`safeApiFetch` (no retry loop); a payload whose `status` is not `"OK"`
throws `payload?.status || payload?.error || "SunriseSunset API Fehler"`. -/
def ssFetchSunEvents (latitude longitude : ℚ) (_apiKey : Option String)
    (outcome : FetchOut (Option SSPayload)) : ProviderReply SSNormalized :=
  let coordCheck := validateCoordinates latitude longitude
  if coordCheck.valid then
    match outcome with
    | .thrown msg => .err msg "sunrisesunset"
    | .ok none => .err "SunriseSunset API Fehler" "sunrisesunset"
    | .ok (some p) =>
      if p.status = some "OK" then
        .ok (ssNormalize (p.results.getD ssEmptyResults)) "sunrisesunset"
      else
        .err (jsOrStr p.status (jsOrStr p.error "SunriseSunset API Fehler"))
          "sunrisesunset"
  else
    .err (coordCheck.error.getD "") "sunrisesunset"

/-- One entry of `payload.localityInfo.administrative` in a BigDataCloud
response, restricted to the field the script reads. -/
structure BDCAdminEntry where
  name : Option String
deriving Repr, DecidableEq

/-- The `timezone` object of a BigDataCloud response. -/
structure BDCTimezone where
  ianaTimezone : Option String
  name : Option String
deriving Repr, DecidableEq

/-- A BigDataCloud reverse-geocoding response body, restricted to the fields
the script reads. `localityInfoAdministrative` is
`payload.localityInfo.administrative` (`none` when missing or not an
array). -/
structure BDCPayload where
  latitude : Option ℚ
  longitude : Option ℚ
  city : Option String
  locality : Option String
  principalSubdivision : Option String
  continent : Option String
  countryName : Option String
  countryCode : Option String
  plusCode : Option String
  postcode : Option String
  confidence : Option ℚ
  timezone : Option BDCTimezone
  localityInfoAdministrative : Option (List BDCAdminEntry)
deriving Repr, DecidableEq

/-- Normalized result of `BigDataCloudAPI._normalize`. -/
structure BDCNormalized where
  city : Option String
  locality : Option String
  region : Option String
  continent : Option String
  country : Option String
  countryCode : Option String
  countryFlag : Option String
  plusCode : Option String
  postcode : Option String
  timezone : Option String
  confidence : Option ℚ
  subdivisions : List String
  latitude : Option ℚ
  longitude : Option ℚ
deriving Repr, DecidableEq

/-- `BigDataCloudAPI._countryFlag(code)`: the regional-indicator pair for a
two-letter country code (`null` otherwise). -/
def bdcCountryFlag (code : Option String) : Option String :=
  match code with
  | none => none
  | some c =>
    if c = "" ∨ c.length ≠ 2 then none
    else
      some (String.mk (c.toList.map
        (fun ch => Char.ofNat (0x1f1e6 + ch.toUpper.toNat - 65))))

/-- `BigDataCloudAPI._normalize(payload)`. -/
def bdcNormalize (payload : BDCPayload) : BDCNormalized :=
  let adminEntries := payload.localityInfoAdministrative.getD []
  let adminTopName : Option String :=
    match adminEntries.head? with
    | some entry => entry.name
    | none => none
  let subdivisions :=
    ((adminEntries.map BDCAdminEntry.name).filterMap id).filter
      (fun n => n ≠ "") |>.take 3
  { city := jsOrOpt payload.city (jsOrOpt payload.locality
      (jsOrOpt adminTopName payload.principalSubdivision))
    locality := payload.locality
    region := jsOrOpt payload.principalSubdivision adminTopName
    continent := payload.continent
    country := payload.countryName
    countryCode := payload.countryCode
    countryFlag := bdcCountryFlag payload.countryCode
    plusCode := payload.plusCode
    postcode := payload.postcode
    timezone := jsOrOpt (payload.timezone.bind BDCTimezone.ianaTimezone)
      (payload.timezone.bind BDCTimezone.name)
    confidence := payload.confidence
    subdivisions := subdivisions
    latitude := payload.latitude
    longitude := payload.longitude }

/-- `BigDataCloudAPI.fetchLocationDetails(latitude, longitude, apiKey,
language)`: a single `safeApiFetch`; a null payload or one without a
`latitude` field throws `"Ungültige BigDataCloud Antwort"`. The API key and
language only affect the request URL and are therefore unused here. -/
def bdcFetchLocationDetails (latitude longitude : ℚ) (_apiKey : Option String)
    (_language : String) (outcome : FetchOut (Option BDCPayload)) :
    ProviderReply BDCNormalized :=
  let coordCheck := validateCoordinates latitude longitude
  if coordCheck.valid then
    match outcome with
    | .thrown msg => .err msg "bigdatacloud"
    | .ok none => .err "Ungültige BigDataCloud Antwort" "bigdatacloud"
    | .ok (some p) =>
      if p.latitude.isNone then
        .err "Ungültige BigDataCloud Antwort" "bigdatacloud"
      else
        .ok (bdcNormalize p) "bigdatacloud"
  else
    .err (coordCheck.error.getD "") "bigdatacloud"

/-- An HTTP response as far as the service worker inspects it: status,
status text, body text, and the `Response.type` tag (`"error"` for network
error responses, `"default"` for constructed ones). -/
structure NetResponse where
  status : ℕ
  statusText : String
  body : String
  respType : String
deriving Repr, DecidableEq

/-- The synthetic offline response of the service worker's fetch handler:
`new Response("Offline - Diese Seite ist im Offline-Modus nicht verfügbar",
{ status: 503, statusText: "Service Unavailable" })`. -/
def swOfflineResponse : NetResponse :=
  { status := 503
    statusText := "Service Unavailable"
    body := "Offline - Diese Seite ist im Offline-Modus nicht verfügbar"
    respType := "default" }

/-- The external-API pass-through test of the service worker's fetch
handler: such requests are returned to the browser unhandled. -/
def swIsApiRequest (url : String) : Bool :=
  strIncludes url "api.open-meteo.com" ||
  strIncludes url "api.brightsky.dev" ||
  strIncludes url "nominatim.openstreetmap.org" ||
  strIncludes url "geocoding-api.open-meteo.com"

/-- What the fetch handler does with an intercepted request: the response it
passes to `event.respondWith`, and the URL it writes to the shell cache (if
any). -/
structure FetchDecision where
  response : NetResponse
  cacheWrite : Option String
deriving Repr, DecidableEq

/-- The service worker `fetch` event handler (network first, cache
fallback). `network` is the settled network fetch (`none`: the fetch
rejected); `cacheMatch` is the result of `caches.match(request)`.
`isHttpUrl` and `sameOrigin` stand for the `new URL(request.url)` protocol
test and the `reqUrl.origin === self.location.origin` comparison (URL
parsing is not modelled further); they only gate the cache write. A result
of `none` means the handler returned without calling `event.respondWith`
(API requests are passed through). -/
def swHandleFetch (requestUrl : String) (isHttpUrl sameOrigin : Bool)
    (network : Option NetResponse) (cacheMatch : Option NetResponse) :
    Option FetchDecision :=
  if swIsApiRequest requestUrl then none
  else
    some (match network with
      | some resp =>
        if resp.status = 200 ∧ resp.respType ≠ "error" ∧
            isHttpUrl = true ∧ sameOrigin = true then
          { response := resp, cacheWrite := some requestUrl }
        else
          { response := resp, cacheWrite := none }
      | none =>
        match cacheMatch with
        | some cached => { response := cached, cacheWrite := none }
        | none => { response := swOfflineResponse, cacheWrite := none })

/-- An entry of the `failedRequests` IndexedDB store, as replayed by
`retryFailedRequests` (`fetch(req.url, req.options)`, deleted by `req.id`).
The `attempts` counter is modelled from the spec: the enqueuing code is not
among the provided sources and §3 gives `QueuedRequest` an `attempts`
field; the service worker itself never reads or writes it. -/
structure QueuedRequest where
  id : ℕ
  url : String
  options : String
  attempts : ℕ
deriving Repr, DecidableEq

/-- Outcome of replaying one queued request: a settled response with its
`ok` flag, or a rejected fetch. -/
inductive ReplayOutcome where
  | resp (ok : Bool)
  | thrown
deriving Repr, DecidableEq

/-- The service worker's `retryFailedRequests()` drain: iterate over the
`getFailedRequests` snapshot, replay each entry once, delete it on
`response.ok`, leave it untouched otherwise (a rejected replay is only
logged). Returns the remaining store and the number of `fetch` calls
performed. -/
def retryFailedRequests (replay : QueuedRequest → ReplayOutcome) :
    List QueuedRequest → List QueuedRequest × ℕ
  | [] => ([], 0)
  | r :: rest =>
    let (s, n) := retryFailedRequests replay rest
    match replay r with
    | .resp true => (s, n + 1)
    | _ => (r :: s, n + 1)

/-- The sync tag that triggers the durable-retry drain. -/
def swRetrySyncTag : String := "retry-failed-requests"

/-- The service worker's `sync` event handler for the durable retry queue,
viewed as a transition on the number of drains currently in flight: the
handler calls `event.waitUntil(retryFailedRequests())` whenever the tag
matches — it consults no other state, so a matching event always launches
one more drain. -/
def swOnSyncEvent (drainsInFlight : ℕ) (tag : String) : ℕ :=
  if tag = swRetrySyncTag then drainsInFlight + 1 else drainsInFlight

/-- Modelled from the spec: the canonical unit for temperature is °C (§3
NormalizedResult), so the canonical reading of a Fahrenheit value is
`(t - 32) * 5 / 9`. -/
def fahrenheitToCelsius (t : ℚ) : ℚ := (t - 32) * 5 / 9

/-- Modelled from the spec: the canonical unit for wind speed is m/s (§3
NormalizedResult), so the canonical reading of a km/h value is
`w * 1000 / 3600`. -/
def kmhToMps (w : ℚ) : ℚ := w * 1000 / 3600

/-- A Visual Crossing payload that fails shape validation: no `errorCode`,
but `currentConditions` is missing (`_validateResponse` reports
`"Ungültige Visual Crossing Antwort: Keine aktuellen Bedingungen"`). -/
def c5Payload : Option VCPayload :=
  some { errorCode := none, message := none, currentConditions := none, days := some [] }

/-- A network environment whose first attempt delivers the structurally
invalid payload `c5Payload` and whose later attempts time out. -/
def c5Outcomes : Nat → FetchOut (Option VCPayload) := fun k =>
  if k = 0 then FetchOut.ok c5Payload else FetchOut.thrown "Timeout nach 5000ms"

/-- A Meteostat payload that fails shape validation: its `data` array is
empty (`_validateResponse` reports `"Meteostat: Keine Daten für den
angegebenen Zeitraum"`). -/
def msC5Payload : Option MSPayload := some { error := none, data := some [] }

/-- Whether `retryFailedRequests` leaves entry `r` in the store: everything
except a settled `response.ok` replay keeps the entry. -/
def replayKeeps (replay : QueuedRequest → ReplayOutcome) (r : QueuedRequest) : Bool :=
  match replay r with
  | .resp true => false
  | _ => true

/-- A queued request with zero recorded attempts. -/
def c7Entry : QueuedRequest :=
  { id := 1, url := "https://api.open-meteo.com/v1/forecast", options := "", attempts := 0 }

/-- A replay environment in which every replayed fetch rejects. -/
def c7ReplayFails : QueuedRequest → ReplayOutcome := fun _ => ReplayOutcome.thrown

/-- A queued request with three recorded attempts. -/
def c8Entry : QueuedRequest :=
  { id := 2, url := "https://example.com/data", options := "", attempts := 3 }

/-- A `days` entry of a Visual Crossing payload requested with
`unitGroup = "us"`: all temperatures are Fahrenheit values
(`temp = 32 °F` is `0 °C`). -/
def c4UsDay : VCDay :=
  { datetime := "2024-01-02", tempmin := 20, tempmax := 40, temp := 32,
    precip := some 0, windspeed := 10, conditions := some "Clear" }

theorem retryLoop_all_transient {α : Type} (validate : Option α → VResult)
    (classify : String → Bool) (outcomes : Nat → FetchOut (Option α))
    (msgs : Nat → String)
    (ho : ∀ k, outcomes k = FetchOut.thrown (msgs k))
    (hc : ∀ k, classify (msgs k) = false) :
    retryLoop validate classify outcomes =
      ⟨Except.error (msgs 2), 3, [200, 400]⟩ := by
  simp [retryLoop, retryLoopGo, ho 0, ho 1, ho 2, hc 0, hc 1, hc 2]

theorem retryLoop_client_thrown {α : Type} (validate : Option α → VResult)
    (classify : String → Bool) (outcomes : Nat → FetchOut (Option α))
    (msg : String)
    (ho : outcomes 0 = FetchOut.thrown msg)
    (hc : classify msg = true) :
    retryLoop validate classify outcomes = ⟨Except.error msg, 1, []⟩ := by
  simp [retryLoop, retryLoopGo, ho, hc]

theorem retryLoop_client_invalid {α : Type} (validate : Option α → VResult)
    (classify : String → Bool) (outcomes : Nat → FetchOut (Option α))
    (p : Option α)
    (ho : outcomes 0 = FetchOut.ok p)
    (hv : (validate p).valid = false)
    (hc : classify ((validate p).error.getD "") = true) :
    retryLoop validate classify outcomes =
      ⟨Except.error ((validate p).error.getD ""), 1, []⟩ := by
  simp [retryLoop, retryLoopGo, ho, hv, hc]

theorem retryLoopGo_attempts_ge {α : Type} (validate : Option α → VResult)
    (classify : String → Bool) (maxAttempts : Nat)
    (outcomes : Nat → FetchOut (Option α)) :
    ∀ fuel att ws, 1 ≤ fuel →
      att + 1 ≤ (retryLoopGo validate classify maxAttempts outcomes fuel att ws).attemptsMade := by
  intro fuel
  induction fuel with
  | zero => intro att ws h; omega
  | succ n ih =>
    intro att ws _
    simp only [retryLoopGo]
    cases h : outcomes att with
    | ok p =>
      by_cases hv : (validate p).valid
      · simp [hv]
      · simp only [hv, if_neg, Bool.false_eq_true, if_false]
        by_cases hc : (classify ((validate p).error.getD "") ||
            decide (maxAttempts ≤ att + 1))
        · simp [hc]
        · simp only [hc, if_false, Bool.false_eq_true]
          cases n with
          | zero => simp [retryLoopGo]
          | succ m =>
            have := ih (att + 1) (ws ++ [200 * 2 ^ (att + 1 - 1)]) (by omega)
            omega
    | thrown msg =>
      by_cases hc : (classify msg || decide (maxAttempts ≤ att + 1))
      · simp [hc]
      · simp only [hc, if_false, Bool.false_eq_true]
        cases n with
        | zero => simp [retryLoopGo]
        | succ m =>
          have := ih (att + 1) (ws ++ [200 * 2 ^ (att + 1 - 1)]) (by omega)
          omega

theorem retryLoop_invalid_payload_retries {α : Type} (validate : Option α → VResult)
    (classify : String → Bool) (outcomes : Nat → FetchOut (Option α))
    (p : Option α)
    (ho : outcomes 0 = FetchOut.ok p)
    (hv : (validate p).valid = false)
    (hc : classify ((validate p).error.getD "") = false) :
    2 ≤ (retryLoop validate classify outcomes).attemptsMade := by
  simp only [retryLoop, retryLoopGo, ho, hv, hc]
  repeat' split
  all_goals simp_all

theorem retryLoop_all_invalid {α : Type} (validate : Option α → VResult)
    (classify : String → Bool) (outcomes : Nat → FetchOut (Option α))
    (p : Option α)
    (ho : ∀ k, outcomes k = FetchOut.ok p)
    (hv : (validate p).valid = false)
    (hc : classify ((validate p).error.getD "") = false) :
    retryLoop validate classify outcomes =
      ⟨Except.error ((validate p).error.getD ""), 3, [200, 400]⟩ := by
  simp [retryLoop, retryLoopGo, ho 0, ho 1, ho 2, hv, hc]

theorem identifiesProvider_iff {α : Type} (r : ProviderReply α) (name : String) :
    identifiesProvider r name ↔ r.source = name := by
  cases r <;> simp [identifiesProvider, ProviderReply.source]

theorem div_three_point_six (w : ℚ) : w / 3.6 = kmhToMps w := by
  unfold kmhToMps
  norm_num
  ring

theorem msValidateDates_invalid (s e : String)
    (h : dateFormatOk s = false ∨ dateFormatOk e = false ∨
         jsDateMs s = none ∨ jsDateMs e = none ∨
         startAfterEnd s e = true ∨ spanExceeds365 s e = true) :
    (msValidateDates s e).valid = false := by
  unfold msValidateDates
  by_cases h1 : s = ""
  · simp [h1]
  by_cases h2 : e = ""
  · simp [h1, h2]
  by_cases h3 : (dateFormatOk s && dateFormatOk e) = true
  · simp only [h1, h2, h3, if_false, not_true, ite_false, if_neg, not_false_iff]
    rw [Bool.and_eq_true] at h3
    cases hs : jsDateMs s with
    | none => simp [h1, h2, h3, hs]
    | some a =>
      cases he : jsDateMs e with
      | none => simp [h1, h2, h3, hs, he]
      | some b =>
        rcases h with h | h | h | h | h | h
        · rw [h3.1] at h; cases h
        · rw [h3.2] at h; cases h
        · rw [hs] at h; cases h
        · rw [he] at h; cases h
        · unfold startAfterEnd at h
          rw [hs, he] at h
          simp only [decide_eq_true_eq] at h
          simp [h1, h2, h3, hs, he, h]
        · unfold spanExceeds365 at h
          rw [hs, he] at h
          simp only [decide_eq_true_eq] at h
          by_cases hba : b < a
          · simp [h1, h2, h3, hs, he, hba]
          · simp [h1, h2, h3, hs, he, hba, h]
  · simp [h1, h2, h3]

/-- Claim C1: for every provider fetch that fails with a transient
(non-client-error) failure on each attempt, both retry loops make exactly 3
`safeApiFetch` attempts, wait 200 ms before the second attempt and 400 ms
before the third (exponential backoff, base 200 ms, doubling), fail with the
last observed error, and the inter-attempt delays are non-decreasing. -/
theorem c1_transient_retry_three_attempts :
    (∀ (outcomes : Nat → FetchOut (Option VCPayload)) (msgs : Nat → String),
      (∀ k, outcomes k = FetchOut.thrown (msgs k)) →
      (∀ k, vcIsClientError (msgs k) = false) →
      vcRetryLoop outcomes = ⟨Except.error (msgs 2), 3, [200, 400]⟩) ∧
    (∀ (outcomes : Nat → FetchOut (Option MSPayload)) (msgs : Nat → String),
      (∀ k, outcomes k = FetchOut.thrown (msgs k)) →
      (∀ k, msIsClientError (msgs k) = false) →
      msRetryLoop outcomes = ⟨Except.error (msgs 2), 3, [200, 400]⟩) ∧
    List.Chain' (· ≤ ·) [200, 400] :=
  ⟨fun o m ho hc => retryLoop_all_transient _ _ o m ho hc,
   fun o m ho hc => retryLoop_all_transient _ _ o m ho hc,
   by simp⟩

/-- Witness for C1: a network that times out on every attempt drives both
loops through exactly 3 attempts with waits 200 ms and 400 ms. -/
theorem c1_transient_retry_three_attempts_witness :
    vcRetryLoop (fun _ => FetchOut.thrown "Timeout nach 5000ms") =
      ⟨Except.error "Timeout nach 5000ms", 3, [200, 400]⟩ ∧
    msRetryLoop (fun _ => FetchOut.thrown "Timeout nach 5000ms") =
      ⟨Except.error "Timeout nach 5000ms", 3, [200, 400]⟩ := by
  have h1 : vcIsClientError "Timeout nach 5000ms" = false := by decide
  have h2 : msIsClientError "Timeout nach 5000ms" = false := by decide
  exact ⟨c1_transient_retry_three_attempts.1 _ (fun _ => "Timeout nach 5000ms")
           (fun _ => rfl) (fun _ => h1),
         c1_transient_retry_three_attempts.2.1 _ (fun _ => "Timeout nach 5000ms")
           (fun _ => rfl) (fun _ => h2)⟩

/-- Claim C2: a first attempt that fails with a client error — an HTTP
401/403/404/429 message or a provider-reported invalid-key/invalid-request
message, i.e. anything the source's client-error regex matches — makes both
retry loops fail immediately after exactly one attempt, with no backoff
wait; this covers both a thrown fetch error and a payload rejected by
`_validateResponse` with a client-error message. The final conjuncts check
the classification of the concrete 401/403/404/429 and invalid-key
messages. -/
theorem c2_client_error_single_attempt :
    (∀ (outcomes : Nat → FetchOut (Option VCPayload)) (msg : String),
      outcomes 0 = FetchOut.thrown msg → vcIsClientError msg = true →
      vcRetryLoop outcomes = ⟨Except.error msg, 1, []⟩) ∧
    (∀ (outcomes : Nat → FetchOut (Option VCPayload)) (p : Option VCPayload),
      outcomes 0 = FetchOut.ok p → (vcValidateResponse p).valid = false →
      vcIsClientError ((vcValidateResponse p).error.getD "") = true →
      vcRetryLoop outcomes =
        ⟨Except.error ((vcValidateResponse p).error.getD ""), 1, []⟩) ∧
    (∀ (outcomes : Nat → FetchOut (Option MSPayload)) (msg : String),
      outcomes 0 = FetchOut.thrown msg → msIsClientError msg = true →
      msRetryLoop outcomes = ⟨Except.error msg, 1, []⟩) ∧
    (∀ (outcomes : Nat → FetchOut (Option MSPayload)) (p : Option MSPayload),
      outcomes 0 = FetchOut.ok p → (msValidateResponse p).valid = false →
      msIsClientError ((msValidateResponse p).error.getD "") = true →
      msRetryLoop outcomes =
        ⟨Except.error ((msValidateResponse p).error.getD ""), 1, []⟩) ∧
    (vcIsClientError "HTTP Fehler 401" = true ∧
     vcIsClientError "HTTP Fehler 403" = true ∧
     vcIsClientError "HTTP Fehler 404" = true ∧
     vcIsClientError "HTTP Fehler 429" = true ∧
     vcIsClientError "Visual Crossing: Invalid API key" = true ∧
     msIsClientError "HTTP Fehler 429" = true ∧
     msIsClientError "Meteostat: Invalid request" = true) :=
  ⟨fun o m ho hc => retryLoop_client_thrown _ _ o m ho hc,
   fun o p ho hv hc => retryLoop_client_invalid _ _ o p ho hv hc,
   fun o m ho hc => retryLoop_client_thrown _ _ o m ho hc,
   fun o p ho hv hc => retryLoop_client_invalid _ _ o p ho hv hc,
   by decide⟩

/-- Witness for C2: an HTTP 429 first attempt stops the Visual Crossing loop
after one attempt, an HTTP 401 first attempt stops the Meteostat loop after
one attempt, with no waits. -/
theorem c2_client_error_single_attempt_witness :
    vcRetryLoop (fun _ => FetchOut.thrown "HTTP Fehler 429") =
      ⟨Except.error "HTTP Fehler 429", 1, []⟩ ∧
    msRetryLoop (fun _ => FetchOut.thrown "HTTP Fehler 401") =
      ⟨Except.error "HTTP Fehler 401", 1, []⟩ := by
  have h1 : vcIsClientError "HTTP Fehler 429" = true := by decide
  have h2 : msIsClientError "HTTP Fehler 401" = true := by decide
  exact ⟨c2_client_error_single_attempt.1 _ _ rfl h1,
         c2_client_error_single_attempt.2.2.1 _ _ rfl h2⟩

/-- Claim C3: every Provider Client fetch method (`fetchWeather`,
`fetchHistorical`, `fetchSunEvents`, `fetchLocationDetails`) resolves — for
every input and every network behaviour — to an outcome object tagged with
its provider's `source` and carrying either data or the error message; being
total Lean functions into `ProviderReply`, no failure path escapes as an
exception. -/
theorem c3_provider_reply_identifies_provider :
    (∀ (lat lon : ℚ) (key : Option String) (units : String)
        (outcomes : Nat → FetchOut (Option VCPayload)) (today : ℤ),
       identifiesProvider (vcFetchWeather lat lon key units outcomes today).1
         "visualcrossing") ∧
    (∀ (lat lon : ℚ) (s e : String) (key : Option String)
        (outcomes : Nat → FetchOut (Option MSPayload)),
       identifiesProvider (msFetchHistorical lat lon s e key outcomes).1
         "meteostat") ∧
    (∀ (lat lon : ℚ) (key : Option String) (outcome : FetchOut (Option SSPayload)),
       identifiesProvider (ssFetchSunEvents lat lon key outcome) "sunrisesunset") ∧
    (∀ (lat lon : ℚ) (key : Option String) (lang : String)
        (outcome : FetchOut (Option BDCPayload)),
       identifiesProvider (bdcFetchLocationDetails lat lon key lang outcome)
         "bigdatacloud") := by
  refine ⟨?_, ?_, ?_, ?_⟩
  · intro lat lon key units outcomes today
    rw [identifiesProvider_iff]
    unfold vcFetchWeather
    dsimp only
    repeat' split
    all_goals rfl
  · intro lat lon s e key outcomes
    rw [identifiesProvider_iff]
    unfold msFetchHistorical
    dsimp only
    repeat' split
    all_goals rfl
  · intro lat lon key outcome
    rw [identifiesProvider_iff]
    unfold ssFetchSunEvents
    dsimp only
    repeat' split
    all_goals rfl
  · intro lat lon key lang outcome
    rw [identifiesProvider_iff]
    unfold bdcFetchLocationDetails
    dsimp only
    repeat' split
    all_goals rfl

/-- Counterexample for C4: `_formatWeatherData` performs no unit conversion
at all (it even reads `data.resolvedUnit` into an unused variable), so for a
payload natively in US units (`temp = 32` °F, i.e. 0 °C) the normalized
`temp_avg` is still the Fahrenheit number 32, not the canonical Celsius
value 0 demanded by the claim "regardless of the units the source natively
reports". -/
theorem c4_counterexample :
    (vcFormatDay c4UsDay).temp_avg = 32 ∧
    fahrenheitToCelsius 32 = 0 ∧
    (vcFormatDay c4UsDay).temp_avg ≠ fahrenheitToCelsius 32 := by
  refine ⟨rfl, by norm_num [fahrenheitToCelsius], ?_⟩
  norm_num [vcFormatDay, c4UsDay, fahrenheitToCelsius]

/-- Claim C4 (amended): the Meteostat normalizer outputs its (always
metric-requested) payload's temperatures (°C) and precipitation (mm)
unchanged and converts wind speed from km/h to m/s (dividing by 3.6 is
exactly the km/h→m/s conversion); the Visual Crossing normalizer copies
temperature, wind-speed and precipitation values unchanged, so its output is
in whatever units the payload natively uses — canonical only when the
payload is metric, not regardless of the source's native units. -/
theorem c4_normalizer_unit_behaviour :
    ∀ (d : MSDay) (v : VCDay),
      (msFormatDay d).wind_speed = d.wspd.map kmhToMps ∧
      (msFormatDay d).temp_min = d.tmin ∧
      (msFormatDay d).temp_max = d.tmax ∧
      (msFormatDay d).temp_avg = d.tavg ∧
      (msFormatDay d).precipitation = d.prcp.getD 0 ∧
      (vcFormatDay v).temp_min = v.tempmin ∧
      (vcFormatDay v).temp_max = v.tempmax ∧
      (vcFormatDay v).temp_avg = v.temp ∧
      (vcFormatDay v).wind_speed = v.windspeed ∧
      (vcFormatDay v).precipitation = v.precip.getD 0 := by
  intro d v
  refine ⟨?_, rfl, rfl, rfl, rfl, rfl, rfl, rfl, rfl, rfl⟩
  cases h : d.wspd with
  | none => simp [msFormatDay, h]
  | some w => simp [msFormatDay, h, div_three_point_six]

/-- Counterexample for C5: a structurally invalid payload received on the
first attempt (missing `currentConditions`, a validation message the
client-error regex does not match) does NOT end the loop — two further
network attempts are made, for 3 in total, contradicting "no further network
attempt is made after a structurally invalid payload is received". -/
theorem c5_counterexample :
    (vcRetryLoop c5Outcomes).attemptsMade = 3 ∧
    ¬ (vcRetryLoop c5Outcomes).attemptsMade = 1 := by
  decide

/-- Claim C5 (amended): a structurally invalid payload is treated as an
error for that attempt, but it IS retried at the Provider Client layer:
unless its validation message matches the client-error regex, a further
network attempt follows (at least 2 attempts are made), and when every
attempt returns such a payload the loop fails with the validation error
after exhausting all 3 attempts — the invalid payload never becomes a
success result. -/
theorem c5_invalid_payload_retried :
    (∀ (outcomes : Nat → FetchOut (Option VCPayload)) (p : Option VCPayload),
      outcomes 0 = FetchOut.ok p → (vcValidateResponse p).valid = false →
      vcIsClientError ((vcValidateResponse p).error.getD "") = false →
      2 ≤ (vcRetryLoop outcomes).attemptsMade) ∧
    (∀ (outcomes : Nat → FetchOut (Option VCPayload)) (p : Option VCPayload),
      (∀ k, outcomes k = FetchOut.ok p) → (vcValidateResponse p).valid = false →
      vcIsClientError ((vcValidateResponse p).error.getD "") = false →
      vcRetryLoop outcomes =
        ⟨Except.error ((vcValidateResponse p).error.getD ""), 3, [200, 400]⟩) ∧
    (∀ (outcomes : Nat → FetchOut (Option MSPayload)) (p : Option MSPayload),
      outcomes 0 = FetchOut.ok p → (msValidateResponse p).valid = false →
      msIsClientError ((msValidateResponse p).error.getD "") = false →
      2 ≤ (msRetryLoop outcomes).attemptsMade) ∧
    (∀ (outcomes : Nat → FetchOut (Option MSPayload)) (p : Option MSPayload),
      (∀ k, outcomes k = FetchOut.ok p) → (msValidateResponse p).valid = false →
      msIsClientError ((msValidateResponse p).error.getD "") = false →
      msRetryLoop outcomes =
        ⟨Except.error ((msValidateResponse p).error.getD ""), 3, [200, 400]⟩) :=
  ⟨fun o p ho hv hc => retryLoop_invalid_payload_retries _ _ o p ho hv hc,
   fun o p ho hv hc => retryLoop_all_invalid _ _ o p ho hv hc,
   fun o p ho hv hc => retryLoop_invalid_payload_retries _ _ o p ho hv hc,
   fun o p ho hv hc => retryLoop_all_invalid _ _ o p ho hv hc⟩

/-- Witness for the amended C5: the concrete invalid payloads drive both
loops past the first attempt and, when persistent, to 3 attempts and a
final validation error. -/
theorem c5_invalid_payload_retried_witness :
    2 ≤ (vcRetryLoop c5Outcomes).attemptsMade ∧
    vcRetryLoop (fun _ => FetchOut.ok c5Payload) =
      ⟨Except.error ((vcValidateResponse c5Payload).error.getD ""), 3, [200, 400]⟩ ∧
    2 ≤ (msRetryLoop (fun _ => FetchOut.ok msC5Payload)).attemptsMade ∧
    msRetryLoop (fun _ => FetchOut.ok msC5Payload) =
      ⟨Except.error ((msValidateResponse msC5Payload).error.getD ""), 3, [200, 400]⟩ := by
  have hv1 : (vcValidateResponse c5Payload).valid = false := by decide
  have hc1 : vcIsClientError ((vcValidateResponse c5Payload).error.getD "") = false := by
    decide
  have hv2 : (msValidateResponse msC5Payload).valid = false := by decide
  have hc2 : msIsClientError ((msValidateResponse msC5Payload).error.getD "") = false := by
    decide
  exact ⟨c5_invalid_payload_retried.1 c5Outcomes c5Payload rfl hv1 hc1,
         c5_invalid_payload_retried.2.1 _ c5Payload (fun _ => rfl) hv1 hc1,
         c5_invalid_payload_retried.2.2.1 _ msC5Payload rfl hv2 hc2,
         c5_invalid_payload_retried.2.2.2 _ msC5Payload (fun _ => rfl) hv2 hc2⟩

/-- Claim C6: for every intercepted (non-API) request whose network fetch
fails, the service worker's handler responds with the cached entry when one
exists and otherwise with the synthetic offline response — HTTP 503
"Service Unavailable" with the offline message — and it always produces a
response (a total function: the request neither hangs nor rejects
uncaught). -/
theorem c6_offline_fallback :
    ∀ (url : String) (hp so : Bool) (cacheMatch : Option NetResponse),
      swIsApiRequest url = false →
      swHandleFetch url hp so none cacheMatch =
        some { response := cacheMatch.getD swOfflineResponse, cacheWrite := none } ∧
      swOfflineResponse.status = 503 ∧
      swOfflineResponse.statusText = "Service Unavailable" ∧
      swOfflineResponse.body =
        "Offline - Diese Seite ist im Offline-Modus nicht verfügbar" := by
  intro url hp so cache h
  refine ⟨?_, rfl, rfl, rfl⟩
  cases cache <;> simp [swHandleFetch, h]

/-- Witness for C6: for a shell asset URL with the network down, an empty
cache yields the 503 offline response and a cached entry is served as-is. -/
theorem c6_offline_fallback_witness :
    swIsApiRequest "https://example.com/src/app.js" = false ∧
    swHandleFetch "https://example.com/src/app.js" true true none none =
      some { response := swOfflineResponse, cacheWrite := none } ∧
    swHandleFetch "https://example.com/src/app.js" true true none
        (some ⟨200, "OK", "cached shell", "basic"⟩) =
      some { response := ⟨200, "OK", "cached shell", "basic"⟩, cacheWrite := none } := by
  have h : swIsApiRequest "https://example.com/src/app.js" = false := by decide
  exact ⟨h, (c6_offline_fallback _ true true none h).1,
         (c6_offline_fallback _ true true (some ⟨200, "OK", "cached shell", "basic"⟩) h).1⟩

/-- Counterexample for C7: an entry whose replay fails stays in the queue
completely unchanged — `retryFailedRequests` never touches the `attempts`
field, so the counter is NOT incremented as the claim states (the drained
store still holds the entry with `attempts = 0`, not `attempts = 1`). -/
theorem c7_counterexample :
    retryFailedRequests c7ReplayFails [c7Entry] = ([c7Entry], 1) ∧
    c7Entry.attempts = 0 ∧
    retryFailedRequests c7ReplayFails [c7Entry] ≠
      ([{ c7Entry with attempts := c7Entry.attempts + 1 }], 1) := by
  refine ⟨rfl, rfl, ?_⟩
  decide

/-- Claim C7 (amended): each drain of the durable retry queue replays every
queued entry exactly once (the number of `fetch` calls equals the queue
length); an entry whose replay settles with `response.ok` is removed from
the store, and any other entry remains queued unchanged — in particular its
attempt counter is not incremented. -/
theorem c7_drain_replays_once :
    ∀ (replay : QueuedRequest → ReplayOutcome) (store : List QueuedRequest),
      (retryFailedRequests replay store).2 = store.length ∧
      (retryFailedRequests replay store).1 = store.filter (replayKeeps replay) := by
  intro replay store
  induction store with
  | nil => simp [retryFailedRequests]
  | cons r rest ih =>
    cases h : replay r with
    | thrown =>
      simp [retryFailedRequests, h, ih.1, ih.2, List.filter_cons, replayKeeps]
    | resp ok =>
      cases ok <;>
        simp [retryFailedRequests, h, ih.1, ih.2, List.filter_cons, replayKeeps]

/-- Claim C8: draining the durable retry queue is idempotent — when every
replay in the first drain succeeds, the store is left empty, and a second
drain immediately afterwards performs zero network calls. -/
theorem c8_drain_idempotent :
    ∀ (replay : QueuedRequest → ReplayOutcome) (store : List QueuedRequest),
      (∀ r ∈ store, replay r = ReplayOutcome.resp true) →
      (retryFailedRequests replay store).1 = [] ∧
      (retryFailedRequests replay (retryFailedRequests replay store).1).2 = 0 := by
  intro replay store h
  have h1 : (retryFailedRequests replay store).1 = [] := by
    induction store with
    | nil => simp [retryFailedRequests]
    | cons r rest ih =>
      have hr := h r (List.mem_cons_self r rest)
      simp only [retryFailedRequests, hr]
      exact ih (fun x hx => h x (List.mem_cons_of_mem r hx))
  refine ⟨h1, ?_⟩
  rw [h1]
  rfl

/-- Witness for C8: a one-entry queue whose replay succeeds drains to the
empty store, and redraining performs zero fetches. -/
theorem c8_drain_idempotent_witness :
    (retryFailedRequests (fun _ => ReplayOutcome.resp true) [c8Entry]).1 = [] ∧
    (retryFailedRequests (fun _ => ReplayOutcome.resp true)
      (retryFailedRequests (fun _ => ReplayOutcome.resp true) [c8Entry]).1).2 = 0 :=
  c8_drain_idempotent (fun _ => ReplayOutcome.resp true) [c8Entry] (fun _ _ => rfl)

/-- Counterexample for C9: the `sync` handler consults no in-progress state,
so a second `retry-failed-requests` event arriving while one drain is in
flight launches a second concurrent drain (2 in flight, not the 1 the claim
demands of an ignored re-trigger). -/
theorem c9_counterexample :
    swOnSyncEvent (swOnSyncEvent 0 swRetrySyncTag) swRetrySyncTag = 2 ∧
    (2 : ℕ) ≠ 1 := by
  decide

/-- Claim C9 (amended): the service worker's `sync` handler starts a drain
for every event whose tag is `retry-failed-requests`, regardless of how many
drains are already in flight — it has no in-progress guard, so a re-trigger
during a drain yields concurrent drains rather than being ignored. -/
theorem c9_sync_always_starts_drain :
    ∀ (drainsInFlight : ℕ) (tag : String), tag = swRetrySyncTag →
      swOnSyncEvent drainsInFlight tag = drainsInFlight + 1 := by
  intro n tag h
  simp [swOnSyncEvent, h]

/-- Witness for the amended C9: a matching sync event arriving with 5 drains
in flight starts a sixth. -/
theorem c9_sync_always_starts_drain_witness :
    swOnSyncEvent 5 swRetrySyncTag = 6 :=
  c9_sync_always_starts_drain 5 swRetrySyncTag rfl

/-- Claim C10: for every pair of date strings that is malformed (fails the
`YYYY-MM-DD` shape or parses to an invalid date), or whose start lies after
its end, or whose span exceeds 365 days, `MeteostatAPI.fetchHistorical`
resolves to an error result tagged `meteostat` without performing a single
network call, for all coordinates and all network behaviours. -/
theorem c10_invalid_dates_no_network :
    ∀ (lat lon : ℚ) (s e : String) (key : Option String)
      (outcomes : Nat → FetchOut (Option MSPayload)),
      (dateFormatOk s = false ∨ dateFormatOk e = false ∨
       jsDateMs s = none ∨ jsDateMs e = none ∨
       startAfterEnd s e = true ∨ spanExceeds365 s e = true) →
      (msFetchHistorical lat lon s e key outcomes).2 = 0 ∧
      ∃ m, (msFetchHistorical lat lon s e key outcomes).1 =
        ProviderReply.err m "meteostat" := by
  intro lat lon s e key outcomes h
  have hv := msValidateDates_invalid s e h
  unfold msFetchHistorical
  by_cases hc : (validateCoordinates lat lon).valid
  · simp [hc, hv]
  · simp [hc]

/-- Witness for C10: the reversed range 2020-01-01 → 2019-01-01 at
(52.52, 13.405) yields an error with zero network calls. -/
theorem c10_invalid_dates_no_network_witness :
    startAfterEnd "2020-01-01" "2019-01-01" = true ∧
    (msFetchHistorical 52.52 13.405 "2020-01-01" "2019-01-01" none
      (fun _ => FetchOut.thrown "Timeout nach 5000ms")).2 = 0 ∧
    ∃ m, (msFetchHistorical 52.52 13.405 "2020-01-01" "2019-01-01" none
      (fun _ => FetchOut.thrown "Timeout nach 5000ms")).1 =
        ProviderReply.err m "meteostat" := by
  have h : startAfterEnd "2020-01-01" "2019-01-01" = true := by decide
  have hmain := c10_invalid_dates_no_network 52.52 13.405 "2020-01-01" "2019-01-01"
    none (fun _ => FetchOut.thrown "Timeout nach 5000ms")
    (Or.inr (Or.inr (Or.inr (Or.inr (Or.inl h)))))
  exact ⟨h, hmain.1, hmain.2⟩
